import Mathlib

/-!
# Verification of the PokemonMinigame game engine

Shallow embedding of the round generators, answer validators and session
state machine implemented in `src/src/App.tsx`, together with proofs of the
specification's testable properties.

Randomness is modelled by an explicit stream `RandSrc : Nat → Nat`; each
sampling site consumes one stream position, and a draw from a pool of size
`n` is taken modulo `n`, mirroring `Math.floor(Math.random() * n)`.
-/

/-- The six fixed stat keys (`StatKey` in the source). -/
inductive StatKey
  | hp
  | attack
  | defense
  | spAttack
  | spDefense
  | speed
deriving DecidableEq, Repr

/-- The stat record: `Record<StatKey, number>` with the six fixed keys. -/
structure Stats where
  hp : Nat
  attack : Nat
  defense : Nat
  spAttack : Nat
  spDefense : Nat
  speed : Nat
deriving DecidableEq, Repr

/-- A creature record (`Pokemon` in the source). -/
structure Pokemon where
  id : Nat
  name : String
  artwork : String
  stats : Stats
  moves : List String
  flavorText : Option String
deriving DecidableEq, Repr

instance : Inhabited Pokemon := ⟨⟨0, "", "", ⟨0, 0, 0, 0, 0, 0⟩, [], none⟩⟩

/-- Key-indexed stat access, `mon.stats[key]` in the source. -/
def Pokemon.stat (p : Pokemon) (k : StatKey) : Nat :=
  match k with
  | StatKey.hp => p.stats.hp
  | StatKey.attack => p.stats.attack
  | StatKey.defense => p.stats.defense
  | StatKey.spAttack => p.stats.spAttack
  | StatKey.spDefense => p.stats.spDefense
  | StatKey.speed => p.stats.speed

/-- `STAT_KEYS[Math.floor(Math.random() * STAT_KEYS.length)]`: the source
array `STAT_KEYS` lists the keys in the order below. -/
def statKeyOfNat (r : Nat) : StatKey :=
  match r % 6 with
  | 0 => StatKey.hp
  | 1 => StatKey.attack
  | 2 => StatKey.defense
  | 3 => StatKey.spAttack
  | 4 => StatKey.spDefense
  | _ => StatKey.speed

/-! ## Answer normspace: `normalizeAnswer`

The source is
`value.toLowerCase().replace(/[^a-z0-9]/g, '').trim()`.
Characters are modelled through their code points (`Char.toNat`):
`65`..`90` is `A`..`Z`, `97`..`122` is `a`..`z`, `48`..`57` is `0`..`9`. -/

/-- ASCII lower-casing of one character, the effect of `toLowerCase` on the
code points the regex afterwards keeps. -/
def jsLowerChar (c : Char) : Char :=
  if 65 ≤ c.toNat ∧ c.toNat ≤ 90 then Char.ofNat (c.toNat + 32) else c

/-- The character class `[a-z0-9]` of the strip regex. -/
def isAlnumLower (c : Char) : Bool :=
  decide ((97 ≤ c.toNat ∧ c.toNat ≤ 122) ∨ (48 ≤ c.toNat ∧ c.toNat ≤ 57))

/-- White space removed by `String.prototype.trim` (space, tab, line
terminators, NBSP, BOM and the Unicode line and paragraph separators). -/
def isJsSpace (c : Char) : Bool :=
  decide (c.toNat = 32 ∨ c.toNat = 9 ∨ c.toNat = 10 ∨ c.toNat = 11 ∨
    c.toNat = 12 ∨ c.toNat = 13 ∨ c.toNat = 160 ∨ c.toNat = 8232 ∨
    c.toNat = 8233 ∨ c.toNat = 65279)

/-- `trim` as a character-list operation. -/
def trimChars (l : List Char) : List Char :=
  ((l.dropWhile isJsSpace).reverse.dropWhile isJsSpace).reverse

/-- `normalizeAnswer` on the underlying character list. -/
def normList (l : List Char) : List Char :=
  trimChars ((l.map jsLowerChar).filter isAlnumLower)

/-- `normalizeAnswer` from the source: lower-case, strip everything outside
`[a-z0-9]`, then trim. -/
def normalizeAnswer (s : String) : String :=
  String.mk (normList s.data)

/-- `String.prototype.startsWith`, used by the autocomplete filter. -/
def strStartsWith (s p : String) : Bool :=
  List.isPrefixOf p.data s.data

/-- The dex autocomplete helper `dexSuggestions`: catalog entries whose
normalized name starts with the normalized partial guess, first eight,
names only. -/
def dexSuggestions (pool : List Pokemon) (dexGuess : String) : List String :=
  let query := normalizeAnswer dexGuess
  if query = "" then []
  else
    ((pool.filter (fun mon => strStartsWith (normalizeAnswer mon.name) query)).take 8).map
      (fun mon => mon.name)

/-! ## Sampler

`pickRandomPokemon(excludeId?)` draws uniformly and retries up to 40 times
while the draw still carries the excluded id; when the guard is exhausted it
returns the last draw unchanged. -/

/-- A stream of random draws; position `k` holds the `k`-th draw. -/
abbrev RandSrc := Nat → Nat

/-- `pool[Math.floor(Math.random() * pool.length)]` for a nonempty pool
(the default is never used then). -/
def poolAt (pool : List Pokemon) (r : Nat) : Pokemon :=
  pool.getD (r % pool.length) default

/-- The truthiness test `excludeId && candidate.id === excludeId` of the
retry loop (`0` and `undefined` are both falsy in the source). -/
def exclMatches (excl : Option Nat) (cand : Pokemon) : Bool :=
  match excl with
  | some e => (e != 0) && (cand.id == e)
  | none => false

/-- The retry loop of `pickRandomPokemon`; `fuel` is `40 - guard`. Returns
the candidate and the next stream position. -/
def pickExcludeGo (pool : List Pokemon) (excl : Option Nat) (g : RandSrc) :
    Nat → Pokemon → Nat → Pokemon × Nat
  | 0, cand, k => (cand, k)
  | fuel + 1, cand, k =>
      if exclMatches excl cand then
        pickExcludeGo pool excl g fuel (poolAt pool (g k)) (k + 1)
      else (cand, k)

/-- `pickRandomPokemon` on a nonempty pool (every caller checks emptiness
first, as the source does). -/
def pickRandomNE (pool : List Pokemon) (excl : Option Nat) (g : RandSrc)
    (k : Nat) : Pokemon × Nat :=
  pickExcludeGo pool excl g 40 (poolAt pool (g k)) (k + 1)

/-- `pickMoveFrom(mon, moveSet)`: a random move of `mon`, restricted to the
active move pool when one is set; the empty string signals an empty pool. -/
def pickMoveFrom (mon : Pokemon) (mset : Option (List String)) (r : Nat) :
    String :=
  let pool := match mset with
    | some s => mon.moves.filter (fun m => s.contains m)
    | none => mon.moves
  if pool.length = 0 then "" else pool.getD (r % pool.length) ""

/-- `Math.random() > 0.5`, the statement-polarity coin of the
true/false generator. -/
def coin (g : RandSrc) (k : Nat) : Bool :=
  g k % 2 == 1

/-! ## Stat-duel generator (`startStatRound`) -/

/-- A stat-duel round: `{left, right, statKey}`. -/
structure StatRound where
  left : Pokemon
  right : Pokemon
  statKey : StatKey
deriving DecidableEq, Repr

/-- Outcome of the equal-stat redraw loop: final right candidate, final stat
key, next stream position and remaining guard budget (`40 - guard`). -/
structure GuardOut where
  right : Pokemon
  key : StatKey
  nextK : Nat
  fuelLeft : Nat
deriving Repr

/-- The redraw loop of `startStatRound`: while the two creatures tie on the
chosen stat, redraw `right` and the stat key, up to 40 times; on exhaustion
the tying pair is kept. -/
def statGuardLoop (pool : List Pokemon) (g : RandSrc) (nl : Pokemon) :
    Nat → Pokemon → StatKey → Nat → GuardOut
  | 0, nr, st, k => ⟨nr, st, k, 0⟩
  | fuel + 1, nr, st, k =>
      if nl.stat st = nr.stat st then
        let pr := pickRandomNE pool (some nl.id) g k
        statGuardLoop pool g nl fuel pr.1 (statKeyOfNat (g pr.2)) (pr.2 + 1)
      else ⟨nr, st, k, fuel + 1⟩

/-- Result of `startStatRound`: the produced round (or `none` when the
catalog has fewer than two entries), the next stream position, and the
remaining guard budget of the redraw loop. -/
structure StatRoundOut where
  round : Option StatRound
  nextK : Nat
  fuelLeft : Nat
deriving Repr

/-- `startStatRound(keep?)` from the source. -/
def startStatRound (pool : List Pokemon) (keep : Option Pokemon)
    (g : RandSrc) (k : Nat) : StatRoundOut :=
  if pool.length < 2 then ⟨none, k, 0⟩
  else
    let lp := match keep with
      | some p => (p, k)
      | none => pickRandomNE pool none g k
    let rp := pickRandomNE pool (some lp.1.id) g lp.2
    let res := statGuardLoop pool g lp.1 40 rp.1 (statKeyOfNat (g rp.2)) (rp.2 + 1)
    ⟨some ⟨lp.1, res.right, res.key⟩, res.nextK, res.fuelLeft⟩

/-! ## Move-match generator (`startMoveCompareRound`) -/

/-- A move-match round: `{left, right, move}`. -/
structure MoveRound where
  left : Pokemon
  right : Pokemon
  move : String
deriving DecidableEq, Repr

/-- The inner rejection loop: redraw `right` while it knows the move, up to
40 times; on exhaustion the knowing candidate is kept. Returns candidate,
next stream position and remaining budget. -/
def rejectKnowing (pool : List Pokemon) (exclId : Nat) (mv : String)
    (g : RandSrc) : Nat → Pokemon → Nat → Pokemon × Nat × Nat
  | 0, cand, k => (cand, k, 0)
  | fuel + 1, cand, k =>
      if cand.moves.contains mv then
        let pr := pickRandomNE pool (some exclId) g k
        rejectKnowing pool exclId mv g fuel pr.1 pr.2
      else (cand, k, fuel + 1)

/-- Result of the move-match generator: the round (or `none` when the outer
80-attempt budget ran out or the catalog is too small), next stream
position, and the remaining budget of the inner rejection loop at the
moment the round was produced. -/
structure MoveRoundOut where
  round : Option MoveRound
  nextK : Nat
  fuelLeft : Nat
deriving Repr

/-- The outer attempt loop of `startMoveCompareRound`. -/
def moveCompareGo (pool : List Pokemon) (mset : Option (List String))
    (g : RandSrc) : Nat → Nat → MoveRoundOut
  | 0, k => ⟨none, k, 0⟩
  | fuel + 1, k =>
      let lp := pickRandomNE pool none g k
      let mv := pickMoveFrom lp.1 mset (g lp.2)
      if mv = "" then moveCompareGo pool mset g fuel (lp.2 + 1)
      else
        let rp := pickRandomNE pool (some lp.1.id) g (lp.2 + 1)
        let rr := rejectKnowing pool lp.1.id mv g 40 rp.1 rp.2
        ⟨some ⟨lp.1, rr.1, mv⟩, rr.2.1, rr.2.2⟩

/-- `startMoveCompareRound` from the source. -/
def startMoveCompareRound (pool : List Pokemon) (mset : Option (List String))
    (g : RandSrc) (k : Nat) : MoveRoundOut :=
  if pool.length < 2 then ⟨none, k, 0⟩ else moveCompareGo pool mset g 80 k

/-! ## True/false generator (`startTrueFalseRound`) -/

/-- Result of the true/false generator: focus creature, chosen move and the
polarity coin of the successful attempt (the source discards the coin; it is
kept here as a ghost observation). -/
structure TFOut where
  round : Option (Pokemon × String × Bool)
  nextK : Nat
deriving Repr

/-- The outer attempt loop of `startTrueFalseRound`. -/
def trueFalseGo (pool : List Pokemon) (mset : Option (List String))
    (g : RandSrc) : Nat → Nat → TFOut
  | 0, k => ⟨none, k⟩
  | fuel + 1, k =>
      let pk := pickRandomNE pool none g k
      let mv := pickMoveFrom pk.1 mset (g pk.2)
      if mv = "" then trueFalseGo pool mset g fuel (pk.2 + 1)
      else
        if coin g (pk.2 + 1) then ⟨some (pk.1, mv, true), pk.2 + 2⟩
        else
          let ot := pickRandomNE pool (some pk.1.id) g (pk.2 + 2)
          let fm := pickMoveFrom ot.1 mset (g ot.2)
          if fm = "" ∨ pk.1.moves.contains fm = true then
            trueFalseGo pool mset g fuel (ot.2 + 1)
          else ⟨some (pk.1, fm, false), ot.2 + 1⟩

/-- `startTrueFalseRound` from the source. -/
def startTrueFalseRound (pool : List Pokemon) (mset : Option (List String))
    (g : RandSrc) (k : Nat) : TFOut :=
  if pool.length = 0 then ⟨none, k⟩ else trueFalseGo pool mset g 80 k

/-! ## Dex-guess generator (`startDexRound` helpers) -/

/-- `!candidate?.flavorText`: flavor text missing or empty. -/
def flavorFalsy (p : Pokemon) : Bool :=
  match p.flavorText with
  | none => true
  | some t => t == ""

/-- The redraw loop of `pickDexPokemon` (guard 40). -/
def pickDexGo (pool : List Pokemon) (g : RandSrc) :
    Nat → Pokemon → Nat → Pokemon × Nat
  | 0, cand, k => (cand, k)
  | fuel + 1, cand, k =>
      if flavorFalsy cand then
        pickDexGo pool g fuel (poolAt pool (g k)) (k + 1)
      else (cand, k)

/-- `pickDexPokemon` from the source. -/
def pickDexPokemon (pool : List Pokemon) (g : RandSrc) (k : Nat) :
    Option Pokemon × Nat :=
  if pool.length = 0 then (none, k)
  else
    let r := pickDexGo pool g 40 (poolAt pool (g k)) (k + 1)
    (some r.1, r.2)

/-! ## Session state machine

The reactive cells of the `App` component that belong to the engine are
gathered into one `Session` record; each handler and timer body of the
source becomes a function on it. -/

/-- The session status values. -/
inductive Status
  | loading
  | ready
  | revealing
  | result
  | gameover
deriving DecidableEq, Repr

/-- The mode values (`Mode` in the source). -/
inductive GMode
  | menu
  | stat
  | moveCompare
  | moveTrueFalse
  | dexGuess
deriving DecidableEq, Repr

/-- A submitted selection: `GuessSide | TrueFalse` in the source. -/
inductive Sel
  | pickLeft
  | pickRight
  | ansTrue
  | ansFalse
deriving DecidableEq, Repr

/-- The engine-owned reactive cells of the component. -/
structure Session where
  mode : GMode
  status : Status
  pokemon : List Pokemon
  activeMoveSet : Option (List String)
  left : Option Pokemon
  right : Option Pokemon
  focus : Option Pokemon
  stat : StatKey
  moveName : String
  guess : Option Sel
  score : Nat
  compareScore : Nat
  trueFalseScore : Nat
  dexScore : Nat
  dexGuess : String
  dexAnswer : String
  lastKeptId : Option Nat
  statHighScore : Nat
  compareHighScore : Nat
  trueFalseHighScore : Nat
  dexHighScore : Nat
deriving DecidableEq, Repr

/-- The fixed result-phase pause, `setTimeout(..., 1200)` in the source. -/
def resultDelay : Nat := 1200

/-! ### Answer validators -/

/-- `isStatCorrect` from the source. -/
def isStatCorrect (s : Session) : Bool :=
  match s.guess, s.left, s.right with
  | some gs, some l, some r =>
      if l.stat s.stat = r.stat s.stat then false
      else if gs == Sel.pickLeft then decide (l.stat s.stat > r.stat s.stat)
      else decide (r.stat s.stat > l.stat s.stat)
  | _, _, _ => false

/-- `isMoveCompareCorrect` from the source. -/
def isMoveCompareCorrect (s : Session) : Bool :=
  match s.guess, s.left, s.right with
  | some gs, some l, some r =>
      if s.moveName = "" then false
      else
        if l.moves.contains s.moveName == r.moves.contains s.moveName then false
        else if gs == Sel.pickLeft then l.moves.contains s.moveName
        else r.moves.contains s.moveName
  | _, _, _ => false

/-- `isTrueFalseCorrect` from the source: the verdict is recomputed from
move-set membership of the focus creature, nothing is stored. -/
def isTrueFalseCorrect (s : Session) : Bool :=
  match s.guess, s.focus with
  | some gs, some f =>
      if s.moveName = "" then false
      else gs == (if f.moves.contains s.moveName then Sel.ansTrue else Sel.ansFalse)
  | _, _ => false

/-- `isDexCorrect` from the source. -/
def isDexCorrect (s : Session) : Bool :=
  if s.dexAnswer = "" then false
  else normalizeAnswer s.dexGuess == normalizeAnswer s.dexAnswer

/-! ### Round installation and the result-phase timeout -/

/-- Install a generated stat round (`setLeft/setRight/setStat/setGuess`);
when the generator produced nothing the cells are untouched. -/
def applyStatRound (s : Session) (rd : Option StatRound) : Session :=
  match rd with
  | some r =>
      { s with
        left := some r.left
        right := some r.right
        stat := r.statKey
        guess := none }
  | none => s

/-- Install a generated move-match round. -/
def applyMoveRound (s : Session) (rd : Option MoveRound) : Session :=
  match rd with
  | some r =>
      { s with
        left := some r.left
        right := some r.right
        moveName := r.move
        guess := none }
  | none => s

/-- Install a generated true/false round (the ghost coin is discarded,
exactly as the source stores only focus and move name). -/
def applyTFRound (s : Session) (rd : Option (Pokemon × String × Bool)) :
    Session :=
  match rd with
  | some r =>
      { s with
        focus := some r.1
        moveName := r.2.1
        guess := none }
  | none => s

/-- `winner.id === lastKeptId` (`null` compares unequal to every id). -/
def idMatches (kept : Option Nat) (pid : Nat) : Bool :=
  match kept with
  | some kid => pid == kid
  | none => false

/-- The winning creature of a resolved stat duel. -/
def duelWinner (l r : Pokemon) (gs : Sel) : Pokemon :=
  if gs == Sel.pickLeft then l else r

/-- The losing creature of a resolved stat duel. -/
def duelLoser (l r : Pokemon) (gs : Sel) : Pokemon :=
  if gs == Sel.pickLeft then r else l

/-- The carry-over creature: the winner, unless the winner was already the
kept creature, in which case the loser. -/
def duelCarry (kept : Option Nat) (l r : Pokemon) (gs : Sel) : Pokemon :=
  if idMatches kept (duelWinner l r gs).id then duelLoser l r gs
  else duelWinner l r gs

/-- The body of the result-phase `setTimeout` callback. -/
def resultBody (s : Session) (g : RandSrc) (k : Nat) : Session × Nat :=
  match s.mode with
  | GMode.stat =>
      match s.left, s.right, s.guess with
      | some l, some r, some gs =>
          if isStatCorrect s then
            let carry := duelCarry s.lastKeptId l r gs
            let st := startStatRound s.pokemon (some carry) g k
            (applyStatRound
              { s with
                score := s.score + 1
                lastKeptId := some carry.id
                status := Status.ready } st.round, st.nextK)
          else
            ({ s with
               statHighScore := max s.statHighScore s.score
               status := Status.gameover }, k)
      | _, _, _ =>
          if isStatCorrect s then (s, k)
          else
            ({ s with
               statHighScore := max s.statHighScore s.score
               status := Status.gameover }, k)
  | GMode.moveCompare =>
      match s.left, s.right, s.guess with
      | some _, some _, some _ =>
          if isMoveCompareCorrect s then
            let mo := startMoveCompareRound s.pokemon s.activeMoveSet g k
            (applyMoveRound
              { s with
                compareScore := s.compareScore + 1
                status := Status.ready } mo.round, mo.nextK)
          else
            ({ s with
               compareHighScore := max s.compareHighScore s.compareScore
               status := Status.gameover }, k)
      | _, _, _ =>
          if isMoveCompareCorrect s then (s, k)
          else
            ({ s with
               compareHighScore := max s.compareHighScore s.compareScore
               status := Status.gameover }, k)
  | GMode.moveTrueFalse =>
      match s.focus, s.guess with
      | some _, some _ =>
          if isTrueFalseCorrect s then
            let tf := startTrueFalseRound s.pokemon s.activeMoveSet g k
            (applyTFRound
              { s with
                trueFalseScore := s.trueFalseScore + 1
                status := Status.ready } tf.round, tf.nextK)
          else
            ({ s with
               trueFalseHighScore := max s.trueFalseHighScore s.trueFalseScore
               status := Status.gameover }, k)
      | _, _ =>
          if isTrueFalseCorrect s then (s, k)
          else
            ({ s with
               trueFalseHighScore := max s.trueFalseHighScore s.trueFalseScore
               status := Status.gameover }, k)
  | GMode.dexGuess => (s, k)
  | GMode.menu => (s, k)

/-- The result-phase timeout effect: it only runs while the status is
`result`. -/
def resultStep (s : Session) (g : RandSrc) (k : Nat) : Session × Nat :=
  if s.status = Status.result then resultBody s g k else (s, k)

/-! ### Input handlers and the remaining timers -/

/-- `handleGuess` from the source. -/
def handleGuess (s : Session) (sel : Sel) : Session :=
  if s.status ≠ Status.ready then s
  else
    { s with
      guess := some sel
      status := if s.mode == GMode.stat then Status.revealing
                else Status.result }

/-- `handleDexSubmit` from the source (the timer it schedules on a correct
answer is the separate `dexTimerFire`). -/
def handleDexSubmit (s : Session) : Session :=
  if s.dexAnswer = "" ∨ s.status ≠ Status.ready then s
  else if isDexCorrect s then
    { s with
      dexScore := s.dexScore + 1
      status := Status.result }
  else
    { s with
      dexHighScore := max s.dexHighScore s.dexScore
      status := Status.gameover }

/-- `startDexRound` from the source. -/
def startDexRoundS (s : Session) (g : RandSrc) (k : Nat) : Session × Nat :=
  let pd := pickDexPokemon s.pokemon g k
  match pd.1 with
  | none => (s, pd.2)
  | some pick =>
      ({ s with
         focus := some pick
         dexAnswer := pick.name
         dexGuess := ""
         guess := none
         status := Status.ready }, pd.2)

/-- The dex auto-advance timer body: new round, then status `ready`. -/
def dexTimerFire (s : Session) (g : RandSrc) (k : Nat) : Session × Nat :=
  let r := startDexRoundS s g k
  ({ r.1 with status := Status.ready }, r.2)

/-- Completion of the reveal animation (`setStatus('result')` at progress
one); the effect only runs in stat mode while revealing with both cards. -/
def revealDone (s : Session) : Session :=
  if s.status == Status.revealing && s.left.isSome && s.right.isSome &&
      s.mode == GMode.stat then
    { s with status := Status.result }
  else s

/-- `handleRestart` from the source. -/
def handleRestart (s : Session) (g : RandSrc) (k : Nat) : Session × Nat :=
  let s0 := { s with status := Status.ready, guess := none }
  match s.mode with
  | GMode.stat =>
      let s1 := { s0 with score := 0, lastKeptId := none }
      let r := startStatRound s1.pokemon none g k
      (applyStatRound s1 r.round, r.nextK)
  | GMode.moveCompare =>
      let s1 := { s0 with compareScore := 0 }
      let r := startMoveCompareRound s1.pokemon s1.activeMoveSet g k
      (applyMoveRound s1 r.round, r.nextK)
  | GMode.moveTrueFalse =>
      let s1 := { s0 with trueFalseScore := 0 }
      let r := startTrueFalseRound s1.pokemon s1.activeMoveSet g k
      (applyTFRound s1 r.round, r.nextK)
  | GMode.dexGuess =>
      startDexRoundS { s0 with dexScore := 0 } g k
  | GMode.menu => (s0, k)

/-- `handleModeChange` from the source: round cells are cleared, the status
returns to `ready`, and no score cell is touched. -/
def handleModeChange (s : Session) (m : GMode) : Session :=
  { s with
    mode := m
    status := Status.ready
    guess := none
    left := none
    right := none
    focus := none
    moveName := ""
    dexGuess := ""
    dexAnswer := "" }

/-- The engine events: user inputs and timer firings. -/
inductive Event
  | evGuess (sel : Sel)
  | evDexSubmit
  | evResultTimeout
  | evDexTimeout
  | evRevealDone
  | evRestart
  | evModeChange (m : GMode)

/-- One engine transition. -/
def step (s : Session) (e : Event) (g : RandSrc) (k : Nat) : Session × Nat :=
  match e with
  | Event.evGuess sel => (handleGuess s sel, k)
  | Event.evDexSubmit => (handleDexSubmit s, k)
  | Event.evResultTimeout => resultStep s g k
  | Event.evDexTimeout => dexTimerFire s g k
  | Event.evRevealDone => (revealDone s, k)
  | Event.evRestart => handleRestart s g k
  | Event.evModeChange m => (handleModeChange s m, k)

/-- Run a whole sequence of events. -/
def runEvents (s : Session) (es : List Event) (g : RandSrc) (k : Nat) :
    Session × Nat :=
  match es with
  | [] => (s, k)
  | e :: rest =>
      let r := step s e g k
      runEvents r.1 rest g r.2

/-- Pointwise order on the four persisted high-score cells. -/
def highsLe (s t : Session) : Prop :=
  s.statHighScore ≤ t.statHighScore ∧
  s.compareHighScore ≤ t.compareHighScore ∧
  s.trueFalseHighScore ≤ t.trueFalseHighScore ∧
  s.dexHighScore ≤ t.dexHighScore

/-! ### Concrete data used by counterexamples and witnesses -/

/-- Two creatures that tie on every stat and share their only move. -/
def monoA : Pokemon := ⟨1, "alpha", "", ⟨10, 10, 10, 10, 10, 10⟩, ["tackle"], none⟩

/-- See `monoA`. -/
def monoB : Pokemon := ⟨2, "beta", "", ⟨10, 10, 10, 10, 10, 10⟩, ["tackle"], none⟩

/-- Two creatures with distinct values on every stat. -/
def duelA : Pokemon := ⟨1, "alpha", "", ⟨50, 50, 50, 50, 50, 50⟩, [], none⟩

/-- See `duelA`. -/
def duelB : Pokemon := ⟨2, "beta", "", ⟨80, 80, 80, 80, 80, 80⟩, [], none⟩

/-- A creature whose name the autocomplete can suggest. -/
def pika : Pokemon := ⟨25, "pikachu", "", ⟨35, 55, 40, 50, 50, 90⟩, [], none⟩

/-- A creature that knows only `tackle`. -/
def mvA : Pokemon := ⟨1, "alpha", "", ⟨50, 50, 50, 50, 50, 50⟩, ["tackle"], none⟩

/-- A creature that knows only `growl`. -/
def mvB : Pokemon := ⟨2, "beta", "", ⟨80, 80, 80, 80, 80, 80⟩, ["growl"], none⟩

/-- A random stream that keeps answering `0`. -/
def zeroG : RandSrc := fun _ => 0

/-- A random stream that keeps answering `1`. -/
def oneG : RandSrc := fun _ => 1

/-- A random stream whose first draw is `0` and every later draw is `1`. -/
def minG : RandSrc := fun n => min n 1

/-- The identity random stream. -/
def idG : RandSrc := fun n => n

/-- A neutral base session used to build the concrete scenarios. -/
def baseSession : Session :=
  ⟨GMode.menu, Status.ready, [], none, none, none, none, StatKey.attack, "",
   none, 0, 0, 0, 0, "", "", none, 0, 0, 0, 0⟩

/-- A resolved stat-duel result phase: the kept creature (`duelB`, the one
`lastKeptId` names) just won again via the `right` pick. -/
def c6Session : Session :=
  { baseSession with
    mode := GMode.stat
    status := Status.result
    pokemon := [duelA, duelB]
    left := some duelA
    right := some duelB
    guess := some Sel.pickRight
    stat := StatKey.attack
    lastKeptId := some 2
    score := 3
    statHighScore := 1 }

/-- A resolved stat-duel result phase used to exercise the scoring path. -/
def c4Session : Session :=
  { baseSession with
    mode := GMode.stat
    status := Status.result
    pokemon := [duelA, duelB]
    left := some duelA
    right := some duelB
    guess := some Sel.pickRight
    stat := StatKey.attack
    lastKeptId := none
    score := 3
    statHighScore := 1 }

/-- A running stat session with a nonzero score, about to change modes. -/
def c9Session : Session :=
  { baseSession with
    mode := GMode.stat
    status := Status.ready
    pokemon := [duelA, duelB]
    left := some duelA
    right := some duelB
    score := 5 }

/-- A game-over session used for the no-op submission witness. -/
def c10Session : Session :=
  { baseSession with
    mode := GMode.dexGuess
    status := Status.gameover
    pokemon := [pika]
    focus := some pika
    dexAnswer := "pikachu"
    dexGuess := "raichu"
    dexScore := 2 }

/-! ### Character-level facts used for C7 and C8 -/

theorem alnum_lower_fixed (c : Char) (h : isAlnumLower c = true) :
    jsLowerChar c = c := by
  have hc := of_decide_eq_true h
  unfold jsLowerChar
  rcases hc with ⟨h1, _⟩ | ⟨_, h2⟩
  · rw [if_neg]; omega
  · rw [if_neg]; omega

theorem alnum_not_space (c : Char) (h : isAlnumLower c = true) :
    isJsSpace c = false := by
  have hc := of_decide_eq_true h
  unfold isJsSpace
  rw [decide_eq_false_iff_not]
  omega

theorem dropWhile_id_of_none {p : Char → Bool} :
    ∀ l : List Char, (∀ c ∈ l, p c = false) → l.dropWhile p = l := by
  intro l h
  cases l with
  | nil => rfl
  | cons a t =>
      rw [List.dropWhile_cons, h a (List.mem_cons_self a t)]
      simp

theorem trimChars_id_of_no_space (l : List Char)
    (h : ∀ c ∈ l, isJsSpace c = false) : trimChars l = l := by
  unfold trimChars
  rw [dropWhile_id_of_none l h,
    dropWhile_id_of_none l.reverse (fun c hc => h c (List.mem_reverse.mp hc)),
    List.reverse_reverse]

theorem mem_of_mem_dropWhile {p : Char → Bool} :
    ∀ l : List Char, ∀ c ∈ l.dropWhile p, c ∈ l := by
  intro l
  induction l with
  | nil => intro c hc; exact absurd hc (List.not_mem_nil c)
  | cons a t ih =>
      intro c hc
      rw [List.dropWhile_cons] at hc
      by_cases hp : p a = true
      · rw [if_pos hp] at hc
        exact List.mem_cons_of_mem a (ih c hc)
      · rw [if_neg hp] at hc
        exact hc

theorem mem_of_mem_trimChars (l : List Char) (c : Char) (h : c ∈ trimChars l) :
    c ∈ l := by
  unfold trimChars at h
  rw [List.mem_reverse] at h
  have h1 := mem_of_mem_dropWhile _ c h
  rw [List.mem_reverse] at h1
  exact mem_of_mem_dropWhile _ c h1

theorem normList_all_alnum (l : List Char) :
    ∀ c ∈ normList l, isAlnumLower c = true := by
  intro c hc
  have h1 := mem_of_mem_trimChars _ c hc
  exact (List.mem_filter.mp h1).2

theorem normList_idem (l : List Char) : normList (normList l) = normList l := by
  have halnum := normList_all_alnum l
  have hmap : (normList l).map jsLowerChar = normList l := by
    have := List.map_congr_left (f := jsLowerChar) (g := id)
      (fun c hc => alnum_lower_fixed c (halnum c hc))
    rw [this, List.map_id]
  have hfilter : (normList l).filter isAlnumLower = normList l :=
    List.filter_eq_self.mpr halnum
  show trimChars (((normList l).map jsLowerChar).filter isAlnumLower) = normList l
  rw [hmap, hfilter]
  exact trimChars_id_of_no_space _ (fun c hc => alnum_not_space c (halnum c hc))

/-! ### Generator lemmas -/

theorem getD_mem {α : Type} (l : List α) (i : Nat) (d : α)
    (h : i < l.length) : l.getD i d ∈ l := by
  rw [List.getD_eq_getElem?_getD, List.getElem?_eq_getElem h, Option.getD_some]
  exact List.getElem_mem h

theorem pickMoveFrom_mem (mon : Pokemon) (mset : Option (List String))
    (r : Nat) (h : pickMoveFrom mon mset r ≠ "") :
    pickMoveFrom mon mset r ∈ mon.moves := by
  unfold pickMoveFrom at h ⊢
  set pool := (match mset with
    | some s => mon.moves.filter (fun m => s.contains m)
    | none => mon.moves) with hpool
  by_cases hz : pool.length = 0
  · simp only [if_pos hz] at h
    exact absurd rfl h
  · simp only [if_neg hz]
    have hmem : pool.getD (r % pool.length) "" ∈ pool :=
      getD_mem pool (r % pool.length) "" (Nat.mod_lt _ (Nat.pos_of_ne_zero hz))
    rw [hpool] at hmem
    cases mset with
    | none => exact hmem
    | some s => exact (List.mem_filter.mp hmem).1

theorem pickMoveFrom_contains (mon : Pokemon) (mset : Option (List String))
    (r : Nat) (h : pickMoveFrom mon mset r ≠ "") :
    mon.moves.contains (pickMoveFrom mon mset r) = true :=
  List.elem_iff.mpr (pickMoveFrom_mem mon mset r h)

theorem statGuardLoop_ne (pool : List Pokemon) (g : RandSrc) (nl : Pokemon) :
    ∀ fuel nr st k, 0 < (statGuardLoop pool g nl fuel nr st k).fuelLeft →
      nl.stat (statGuardLoop pool g nl fuel nr st k).key ≠
        (statGuardLoop pool g nl fuel nr st k).right.stat
          (statGuardLoop pool g nl fuel nr st k).key := by
  intro fuel
  induction fuel with
  | zero =>
      intro nr st k hf
      exact absurd hf (by simp [statGuardLoop])
  | succ f ih =>
      intro nr st k hf
      by_cases heq : nl.stat st = nr.stat st
      · rw [statGuardLoop, if_pos heq] at hf ⊢
        exact ih _ _ _ hf
      · rw [statGuardLoop, if_neg heq] at hf ⊢
        exact heq

theorem rejectKnowing_not_contains (pool : List Pokemon) (exclId : Nat)
    (mv : String) (g : RandSrc) :
    ∀ fuel cand k, 0 < (rejectKnowing pool exclId mv g fuel cand k).2.2 →
      (rejectKnowing pool exclId mv g fuel cand k).1.moves.contains mv = false := by
  intro fuel
  induction fuel with
  | zero =>
      intro cand k hf
      exact absurd hf (by simp [rejectKnowing])
  | succ f ih =>
      intro cand k hf
      by_cases hc : cand.moves.contains mv = true
      · rw [rejectKnowing, if_pos hc] at hf ⊢
        exact ih _ _ hf
      · rw [rejectKnowing, if_neg hc] at hf ⊢
        exact Bool.not_eq_true _ ▸ hc

theorem moveCompareGo_spec (pool : List Pokemon) (mset : Option (List String))
    (g : RandSrc) :
    ∀ fuel k rd, (moveCompareGo pool mset g fuel k).round = some rd →
      rd.left.moves.contains rd.move = true ∧
      (0 < (moveCompareGo pool mset g fuel k).fuelLeft →
        rd.right.moves.contains rd.move = false) := by
  intro fuel
  induction fuel with
  | zero =>
      intro k rd h
      exact absurd h (by simp [moveCompareGo])
  | succ f ih =>
      intro k rd h
      by_cases hz : pickMoveFrom (pickRandomNE pool none g k).1 mset
          (g (pickRandomNE pool none g k).2) = ""
      · rw [moveCompareGo, if_pos hz] at h ⊢
        exact ih _ _ h
      · rw [moveCompareGo, if_neg hz] at h ⊢
        have hrd : rd = ⟨(pickRandomNE pool none g k).1,
            (rejectKnowing pool (pickRandomNE pool none g k).1.id
              (pickMoveFrom (pickRandomNE pool none g k).1 mset
                (g (pickRandomNE pool none g k).2)) g 40
              (pickRandomNE pool (some (pickRandomNE pool none g k).1.id) g
                ((pickRandomNE pool none g k).2 + 1)).1
              (pickRandomNE pool (some (pickRandomNE pool none g k).1.id) g
                ((pickRandomNE pool none g k).2 + 1)).2).1,
            pickMoveFrom (pickRandomNE pool none g k).1 mset
              (g (pickRandomNE pool none g k).2)⟩ := by
          have := h
          simp only at this
          exact (Option.some.injEq _ _ ▸ this).symm
        subst hrd
        refine ⟨pickMoveFrom_contains _ _ _ hz, ?_⟩
        intro hf
        exact rejectKnowing_not_contains pool _ _ g 40 _ _ hf

theorem trueFalseGo_spec (pool : List Pokemon) (mset : Option (List String))
    (g : RandSrc) :
    ∀ fuel k f m b, (trueFalseGo pool mset g fuel k).round = some (f, m, b) →
      (f.moves.contains m = b ∧ m ≠ "") := by
  intro fuel
  induction fuel with
  | zero =>
      intro k f m b h
      exact absurd h (by simp [trueFalseGo])
  | succ fl ih =>
      intro k f m b h
      by_cases hz : pickMoveFrom (pickRandomNE pool none g k).1 mset
          (g (pickRandomNE pool none g k).2) = ""
      · rw [trueFalseGo, if_pos hz] at h
        exact ih _ _ _ _ h
      · rw [trueFalseGo, if_neg hz] at h
        by_cases hc : coin g ((pickRandomNE pool none g k).2 + 1) = true
        · rw [if_pos hc] at h
          have h' : (pickRandomNE pool none g k).1 = f ∧
              pickMoveFrom (pickRandomNE pool none g k).1 mset
                (g (pickRandomNE pool none g k).2) = m ∧ true = b := by
            simpa [Prod.ext_iff] using h
          obtain ⟨rfl, rfl, rfl⟩ := h'
          exact ⟨pickMoveFrom_contains _ _ _ hz, hz⟩
        · rw [if_neg hc] at h
          by_cases hd : pickMoveFrom (pickRandomNE pool
                (some (pickRandomNE pool none g k).1.id) g
                ((pickRandomNE pool none g k).2 + 2)).1 mset
              (g (pickRandomNE pool (some (pickRandomNE pool none g k).1.id)
                g ((pickRandomNE pool none g k).2 + 2)).2) = "" ∨
              (pickRandomNE pool none g k).1.moves.contains
                (pickMoveFrom (pickRandomNE pool
                  (some (pickRandomNE pool none g k).1.id) g
                  ((pickRandomNE pool none g k).2 + 2)).1 mset
                (g (pickRandomNE pool (some (pickRandomNE pool none g k).1.id)
                  g ((pickRandomNE pool none g k).2 + 2)).2)) = true
          · rw [if_pos hd] at h
            exact ih _ _ _ _ h
          · rw [if_neg hd] at h
            push_neg at hd
            have h' : (pickRandomNE pool none g k).1 = f ∧
                pickMoveFrom (pickRandomNE pool
                  (some (pickRandomNE pool none g k).1.id) g
                  ((pickRandomNE pool none g k).2 + 2)).1 mset
                  (g (pickRandomNE pool (some (pickRandomNE pool none g k).1.id)
                    g ((pickRandomNE pool none g k).2 + 2)).2) = m ∧
                false = b := by
              simpa [Prod.ext_iff] using h
            obtain ⟨rfl, rfl, rfl⟩ := h'
            exact ⟨Bool.not_eq_true _ ▸ hd.2, hd.1⟩

/-- C7 -- `normalizeAnswer` is idempotent, and case- and
punctuation-insensitive: `normalize("Mr. Mime") = normalize("mr-mime")`. -/
theorem c7_normalize_idempotent :
    (∀ s : String, normalizeAnswer (normalizeAnswer s) = normalizeAnswer s) ∧
    normalizeAnswer "Mr. Mime" = normalizeAnswer "mr-mime" := by
  constructor
  · intro s
    show String.mk (normList (normList s.data)) = String.mk (normList s.data)
    rw [normList_idem]
  · decide

/-! ## Claim C1 -/

/-- C1 (counterexample) -- with the two-creature catalog `[monoA, monoB]`,
whose members tie on every stat, `startStatRound` exhausts its 40-attempt
guard and still presents a round, with equal values on the chosen stat. -/
theorem c1_counterexample :
    (startStatRound [monoA, monoB] none minG 0).round =
      some ⟨monoA, monoB, StatKey.attack⟩ ∧
    monoA.stat StatKey.attack = monoB.stat StatKey.attack := by
  decide

/-- C1 (amended) -- every stat-duel round generated without exhausting the
40-attempt redraw guard has distinct values on the chosen stat; when the
guard is exhausted the tying pair is presented anyway (see the
counterexample). -/
theorem c1_stat_duel_distinct (pool : List Pokemon) (keep : Option Pokemon)
    (g : RandSrc) (k : Nat) (rd : StatRound)
    (h : (startStatRound pool keep g k).round = some rd)
    (hf : 0 < (startStatRound pool keep g k).fuelLeft) :
    rd.left.stat rd.statKey ≠ rd.right.stat rd.statKey := by
  unfold startStatRound at h hf
  by_cases hp : pool.length < 2
  · rw [if_pos hp] at h
    exact absurd h (by simp)
  · rw [if_neg hp] at h hf
    cases keep with
    | none =>
        simp only at h hf
        have h' : rd = ⟨(pickRandomNE pool none g k).1,
            (statGuardLoop pool g (pickRandomNE pool none g k).1 40
              (pickRandomNE pool (some (pickRandomNE pool none g k).1.id) g
                (pickRandomNE pool none g k).2).1
              (statKeyOfNat (g (pickRandomNE pool
                (some (pickRandomNE pool none g k).1.id) g
                (pickRandomNE pool none g k).2).2))
              ((pickRandomNE pool (some (pickRandomNE pool none g k).1.id) g
                (pickRandomNE pool none g k).2).2 + 1)).right,
            (statGuardLoop pool g (pickRandomNE pool none g k).1 40
              (pickRandomNE pool (some (pickRandomNE pool none g k).1.id) g
                (pickRandomNE pool none g k).2).1
              (statKeyOfNat (g (pickRandomNE pool
                (some (pickRandomNE pool none g k).1.id) g
                (pickRandomNE pool none g k).2).2))
              ((pickRandomNE pool (some (pickRandomNE pool none g k).1.id) g
                (pickRandomNE pool none g k).2).2 + 1)).key⟩ := by
          simpa [eq_comm] using h
        subst h'
        exact fun he => statGuardLoop_ne pool g _ 40 _ _ _ hf he
    | some p =>
        simp only at h hf
        have h' : rd = ⟨p,
            (statGuardLoop pool g p 40
              (pickRandomNE pool (some p.id) g k).1
              (statKeyOfNat (g (pickRandomNE pool (some p.id) g k).2))
              ((pickRandomNE pool (some p.id) g k).2 + 1)).right,
            (statGuardLoop pool g p 40
              (pickRandomNE pool (some p.id) g k).1
              (statKeyOfNat (g (pickRandomNE pool (some p.id) g k).2))
              ((pickRandomNE pool (some p.id) g k).2 + 1)).key⟩ := by
          simpa [eq_comm] using h
        subst h'
        exact fun he => statGuardLoop_ne pool g _ 40 _ _ _ hf he

/-- C1 (witness) -- a concrete run in which the guard is not exhausted:
the presented creatures differ on the chosen stat. -/
theorem c1_witness : duelA.stat StatKey.defense ≠ duelB.stat StatKey.defense :=
  c1_stat_duel_distinct [duelA, duelB] none idG 0 ⟨duelA, duelB, StatKey.defense⟩
    (by decide) (by decide)

/-! ## Claim C2 -/

/-- C2 (counterexample) -- with the catalog `[monoA, monoB]`, where both
creatures know `tackle`, the inner rejection guard is exhausted and the
round is presented anyway: both sides know the chosen move. -/
theorem c2_counterexample :
    (startMoveCompareRound [monoA, monoB] none minG 0).round =
      some ⟨monoA, monoB, "tackle"⟩ ∧
    monoA.moves.contains "tackle" = true ∧
    monoB.moves.contains "tackle" = true := by
  decide

/-- C2 (amended) -- in every generated move-match round the left creature
knows the chosen move, and the right creature does not know it whenever the
inner 40-attempt rejection guard was not exhausted; on exhaustion a right
creature that knows the move can be presented (see the counterexample). -/
theorem c2_move_match_unique (pool : List Pokemon)
    (mset : Option (List String)) (g : RandSrc) (k : Nat) (rd : MoveRound)
    (h : (startMoveCompareRound pool mset g k).round = some rd) :
    rd.left.moves.contains rd.move = true ∧
    (0 < (startMoveCompareRound pool mset g k).fuelLeft →
      rd.right.moves.contains rd.move = false) := by
  unfold startMoveCompareRound at h ⊢
  by_cases hp : pool.length < 2
  · rw [if_pos hp] at h
    exact absurd h (by simp)
  · rw [if_neg hp] at h ⊢
    exact moveCompareGo_spec pool mset g 80 k rd h

/-- C2 (witness) -- a concrete run in which the guard is not exhausted:
only the left creature knows the move. -/
theorem c2_witness :
    mvA.moves.contains "tackle" = true ∧ mvB.moves.contains "tackle" = false := by
  have h := c2_move_match_unique [mvA, mvB] none idG 0 ⟨mvA, mvB, "tackle"⟩
    (by decide)
  exact ⟨h.1, h.2 (by decide)⟩

/-! ## Claim C3 -/

/-- C3 -- every generated true/false round is consistent: when the
polarity coin of the successful attempt said "true" the focus creature
knows the chosen move, and when it said "false" it does not; and the
validator recomputes the verdict from move-set membership of the focus at
validation time (nothing about the statement's truth is stored in the
round). -/
theorem c3_truefalse_membership (pool : List Pokemon)
    (mset : Option (List String)) (g : RandSrc) (k : Nat)
    (f : Pokemon) (m : String) (b : Bool)
    (h : (startTrueFalseRound pool mset g k).round = some (f, m, b)) :
    f.moves.contains m = b ∧
    ∀ (s : Session) (gs : Sel), s.guess = some gs → s.focus = some f →
      s.moveName = m →
      isTrueFalseCorrect s =
        (gs == (if f.moves.contains m then Sel.ansTrue else Sel.ansFalse)) := by
  unfold startTrueFalseRound at h
  by_cases hp : pool.length = 0
  · rw [if_pos hp] at h
    exact absurd h (by simp)
  · rw [if_neg hp] at h
    obtain ⟨hmem, hne⟩ := trueFalseGo_spec pool mset g 80 k f m b h
    refine ⟨hmem, ?_⟩
    intro s gs hg hf hm
    unfold isTrueFalseCorrect
    rw [hg, hf]
    simp [hm, hne]

/-- C3 (witness) -- a concrete run producing a "true" round whose focus
indeed knows the move. -/
theorem c3_witness : mvA.moves.contains "tackle" = true :=
  (c3_truefalse_membership [mvA] none oneG 0 mvA "tackle" true (by decide)).1

/-! ## Frame lemmas for round installation -/

theorem applyStatRound_score (s : Session) (rd : Option StatRound) :
    (applyStatRound s rd).score = s.score := by cases rd <;> rfl

theorem applyStatRound_status (s : Session) (rd : Option StatRound) :
    (applyStatRound s rd).status = s.status := by cases rd <;> rfl

theorem applyStatRound_lastKeptId (s : Session) (rd : Option StatRound) :
    (applyStatRound s rd).lastKeptId = s.lastKeptId := by cases rd <;> rfl

theorem applyStatRound_statHigh (s : Session) (rd : Option StatRound) :
    (applyStatRound s rd).statHighScore = s.statHighScore := by cases rd <;> rfl

theorem applyStatRound_compareHigh (s : Session) (rd : Option StatRound) :
    (applyStatRound s rd).compareHighScore = s.compareHighScore := by
  cases rd <;> rfl

theorem applyStatRound_tfHigh (s : Session) (rd : Option StatRound) :
    (applyStatRound s rd).trueFalseHighScore = s.trueFalseHighScore := by
  cases rd <;> rfl

theorem applyStatRound_dexHigh (s : Session) (rd : Option StatRound) :
    (applyStatRound s rd).dexHighScore = s.dexHighScore := by cases rd <;> rfl

theorem applyMoveRound_compareScore (s : Session) (rd : Option MoveRound) :
    (applyMoveRound s rd).compareScore = s.compareScore := by cases rd <;> rfl

theorem applyMoveRound_status (s : Session) (rd : Option MoveRound) :
    (applyMoveRound s rd).status = s.status := by cases rd <;> rfl

theorem applyMoveRound_statHigh (s : Session) (rd : Option MoveRound) :
    (applyMoveRound s rd).statHighScore = s.statHighScore := by cases rd <;> rfl

theorem applyMoveRound_compareHigh (s : Session) (rd : Option MoveRound) :
    (applyMoveRound s rd).compareHighScore = s.compareHighScore := by
  cases rd <;> rfl

theorem applyMoveRound_tfHigh (s : Session) (rd : Option MoveRound) :
    (applyMoveRound s rd).trueFalseHighScore = s.trueFalseHighScore := by
  cases rd <;> rfl

theorem applyMoveRound_dexHigh (s : Session) (rd : Option MoveRound) :
    (applyMoveRound s rd).dexHighScore = s.dexHighScore := by cases rd <;> rfl

theorem applyTFRound_trueFalseScore (s : Session)
    (rd : Option (Pokemon × String × Bool)) :
    (applyTFRound s rd).trueFalseScore = s.trueFalseScore := by cases rd <;> rfl

theorem applyTFRound_status (s : Session) (rd : Option (Pokemon × String × Bool)) :
    (applyTFRound s rd).status = s.status := by cases rd <;> rfl

theorem applyTFRound_statHigh (s : Session) (rd : Option (Pokemon × String × Bool)) :
    (applyTFRound s rd).statHighScore = s.statHighScore := by cases rd <;> rfl

theorem applyTFRound_compareHigh (s : Session)
    (rd : Option (Pokemon × String × Bool)) :
    (applyTFRound s rd).compareHighScore = s.compareHighScore := by
  cases rd <;> rfl

theorem applyTFRound_tfHigh (s : Session) (rd : Option (Pokemon × String × Bool)) :
    (applyTFRound s rd).trueFalseHighScore = s.trueFalseHighScore := by
  cases rd <;> rfl

theorem applyTFRound_dexHigh (s : Session) (rd : Option (Pokemon × String × Bool)) :
    (applyTFRound s rd).dexHighScore = s.dexHighScore := by cases rd <;> rfl

theorem startDexRoundS_dexScore (s : Session) (g : RandSrc) (k : Nat) :
    (startDexRoundS s g k).1.dexScore = s.dexScore := by
  unfold startDexRoundS
  rcases ho : (pickDexPokemon s.pokemon g k).1 with _ | p <;> simp [ho]

theorem startDexRoundS_statHigh (s : Session) (g : RandSrc) (k : Nat) :
    (startDexRoundS s g k).1.statHighScore = s.statHighScore := by
  unfold startDexRoundS
  rcases ho : (pickDexPokemon s.pokemon g k).1 with _ | p <;> simp [ho]

theorem startDexRoundS_compareHigh (s : Session) (g : RandSrc) (k : Nat) :
    (startDexRoundS s g k).1.compareHighScore = s.compareHighScore := by
  unfold startDexRoundS
  rcases ho : (pickDexPokemon s.pokemon g k).1 with _ | p <;> simp [ho]

theorem startDexRoundS_tfHigh (s : Session) (g : RandSrc) (k : Nat) :
    (startDexRoundS s g k).1.trueFalseHighScore = s.trueFalseHighScore := by
  unfold startDexRoundS
  rcases ho : (pickDexPokemon s.pokemon g k).1 with _ | p <;> simp [ho]

theorem startDexRoundS_dexHigh (s : Session) (g : RandSrc) (k : Nat) :
    (startDexRoundS s g k).1.dexHighScore = s.dexHighScore := by
  unfold startDexRoundS
  rcases ho : (pickDexPokemon s.pokemon g k).1 with _ | p <;> simp [ho]

/-! ## Result-phase branch lemmas -/

theorem resultBody_stat_correct (s : Session) (g : RandSrc) (k : Nat)
    (hm : s.mode = GMode.stat) (hc : isStatCorrect s = true) :
    (resultBody s g k).1.score = s.score + 1 ∧
    (resultBody s g k).1.status = Status.ready := by
  unfold resultBody
  rw [hm]
  rcases hsl : s.left with _ | l <;> rcases hsr : s.right with _ | r <;>
    rcases hsg : s.guess with _ | gs <;>
      first
      | (refine ⟨?_, ?_⟩ <;>
          simp [hsl, hsr, hsg, hc, applyStatRound_score, applyStatRound_status]
         done)
      | (exfalso
         unfold isStatCorrect at hc
         rw [hsg] at hc
         try rw [hsl] at hc
         try rw [hsr] at hc
         simp at hc)

theorem resultBody_stat_wrong (s : Session) (g : RandSrc) (k : Nat)
    (hm : s.mode = GMode.stat) (hc : isStatCorrect s = false) :
    (resultBody s g k).1.statHighScore = max s.statHighScore s.score ∧
    (resultBody s g k).1.status = Status.gameover := by
  unfold resultBody
  rw [hm]
  rcases hsl : s.left with _ | l <;> rcases hsr : s.right with _ | r <;>
    rcases hsg : s.guess with _ | gs <;>
      simp [hsl, hsr, hsg, hc]

theorem resultBody_compare_correct (s : Session) (g : RandSrc) (k : Nat)
    (hm : s.mode = GMode.moveCompare) (hc : isMoveCompareCorrect s = true) :
    (resultBody s g k).1.compareScore = s.compareScore + 1 ∧
    (resultBody s g k).1.status = Status.ready := by
  unfold resultBody
  rw [hm]
  rcases hsl : s.left with _ | l <;> rcases hsr : s.right with _ | r <;>
    rcases hsg : s.guess with _ | gs <;>
      first
      | (refine ⟨?_, ?_⟩ <;>
          simp [hsl, hsr, hsg, hc, applyMoveRound_compareScore,
            applyMoveRound_status]
         done)
      | (exfalso
         unfold isMoveCompareCorrect at hc
         rw [hsg] at hc
         try rw [hsl] at hc
         try rw [hsr] at hc
         simp at hc)

theorem resultBody_compare_wrong (s : Session) (g : RandSrc) (k : Nat)
    (hm : s.mode = GMode.moveCompare) (hc : isMoveCompareCorrect s = false) :
    (resultBody s g k).1.compareHighScore = max s.compareHighScore s.compareScore ∧
    (resultBody s g k).1.status = Status.gameover := by
  unfold resultBody
  rw [hm]
  rcases hsl : s.left with _ | l <;> rcases hsr : s.right with _ | r <;>
    rcases hsg : s.guess with _ | gs <;>
      simp [hsl, hsr, hsg, hc]

theorem resultBody_tf_correct (s : Session) (g : RandSrc) (k : Nat)
    (hm : s.mode = GMode.moveTrueFalse) (hc : isTrueFalseCorrect s = true) :
    (resultBody s g k).1.trueFalseScore = s.trueFalseScore + 1 ∧
    (resultBody s g k).1.status = Status.ready := by
  unfold resultBody
  rw [hm]
  rcases hsf : s.focus with _ | f <;> rcases hsg : s.guess with _ | gs <;>
      first
      | (refine ⟨?_, ?_⟩ <;>
          simp [hsf, hsg, hc, applyTFRound_trueFalseScore, applyTFRound_status]
         done)
      | (exfalso
         unfold isTrueFalseCorrect at hc
         rw [hsg] at hc
         try rw [hsf] at hc
         simp at hc)

theorem resultBody_tf_wrong (s : Session) (g : RandSrc) (k : Nat)
    (hm : s.mode = GMode.moveTrueFalse) (hc : isTrueFalseCorrect s = false) :
    (resultBody s g k).1.trueFalseHighScore =
      max s.trueFalseHighScore s.trueFalseScore ∧
    (resultBody s g k).1.status = Status.gameover := by
  unfold resultBody
  rw [hm]
  rcases hsf : s.focus with _ | f <;> rcases hsg : s.guess with _ | gs <;>
      simp [hsf, hsg, hc]

/-! ## Claim C4 -/

/-- C4 -- after the fixed `resultDelay = 1200` pause of the `result` phase,
in stat, move-compare and move-truefalse mode: a correct guess increments
the active mode's score by exactly one and returns the status to `ready`
(the next round having been requested from the generator), while an
incorrect guess writes `max(persisted, session score)` into the persisted
high score and moves to `gameover`. -/
theorem c4_result_transition (s : Session) (g : RandSrc) (k : Nat)
    (h : s.status = Status.result) :
    resultDelay = 1200 ∧
    (s.mode = GMode.stat →
      (isStatCorrect s = true →
        (resultStep s g k).1.score = s.score + 1 ∧
        (resultStep s g k).1.status = Status.ready) ∧
      (isStatCorrect s = false →
        (resultStep s g k).1.statHighScore = max s.statHighScore s.score ∧
        (resultStep s g k).1.status = Status.gameover)) ∧
    (s.mode = GMode.moveCompare →
      (isMoveCompareCorrect s = true →
        (resultStep s g k).1.compareScore = s.compareScore + 1 ∧
        (resultStep s g k).1.status = Status.ready) ∧
      (isMoveCompareCorrect s = false →
        (resultStep s g k).1.compareHighScore =
          max s.compareHighScore s.compareScore ∧
        (resultStep s g k).1.status = Status.gameover)) ∧
    (s.mode = GMode.moveTrueFalse →
      (isTrueFalseCorrect s = true →
        (resultStep s g k).1.trueFalseScore = s.trueFalseScore + 1 ∧
        (resultStep s g k).1.status = Status.ready) ∧
      (isTrueFalseCorrect s = false →
        (resultStep s g k).1.trueFalseHighScore =
          max s.trueFalseHighScore s.trueFalseScore ∧
        (resultStep s g k).1.status = Status.gameover)) := by
  have hstep : resultStep s g k = resultBody s g k := by
    unfold resultStep
    rw [if_pos h]
  rw [hstep]
  exact ⟨rfl,
    fun hm => ⟨resultBody_stat_correct s g k hm,
               resultBody_stat_wrong s g k hm⟩,
    fun hm => ⟨resultBody_compare_correct s g k hm,
               resultBody_compare_wrong s g k hm⟩,
    fun hm => ⟨resultBody_tf_correct s g k hm,
               resultBody_tf_wrong s g k hm⟩⟩

/-- C4 (witness) -- a concrete correct stat guess in the `result` phase:
the score climbs from 3 to 4 and the status returns to `ready`. -/
theorem c4_witness :
    resultDelay = 1200 ∧
    (resultStep c4Session oneG 0).1.score = c4Session.score + 1 ∧
    (resultStep c4Session oneG 0).1.status = Status.ready := by
  have h := c4_result_transition c4Session oneG 0 rfl
  exact ⟨h.1, (h.2.1 rfl).1 (by decide)⟩

/-! ## Claim C5 -/

theorem highsLe_refl (s : Session) : highsLe s s :=
  ⟨Nat.le_refl _, Nat.le_refl _, Nat.le_refl _, Nat.le_refl _⟩

theorem highsLe_trans {a b c : Session} (h1 : highsLe a b) (h2 : highsLe b c) :
    highsLe a c :=
  ⟨Nat.le_trans h1.1 h2.1, Nat.le_trans h1.2.1 h2.2.1,
   Nat.le_trans h1.2.2.1 h2.2.2.1, Nat.le_trans h1.2.2.2 h2.2.2.2⟩

theorem resultStep_highs (s : Session) (g : RandSrc) (k : Nat) :
    highsLe s (resultStep s g k).1 := by
  unfold highsLe resultStep resultBody
  repeat' split
  all_goals refine ⟨?_, ?_, ?_, ?_⟩
  all_goals
    simp [applyStatRound_statHigh, applyStatRound_compareHigh,
      applyStatRound_tfHigh, applyStatRound_dexHigh,
      applyMoveRound_statHigh, applyMoveRound_compareHigh,
      applyMoveRound_tfHigh, applyMoveRound_dexHigh,
      applyTFRound_statHigh, applyTFRound_compareHigh,
      applyTFRound_tfHigh, applyTFRound_dexHigh, Nat.le_max_left]

theorem handleGuess_highs (s : Session) (sel : Sel) :
    highsLe s (handleGuess s sel) := by
  unfold highsLe handleGuess
  split <;> exact ⟨Nat.le_refl _, Nat.le_refl _, Nat.le_refl _, Nat.le_refl _⟩

theorem handleDexSubmit_highs (s : Session) :
    highsLe s (handleDexSubmit s) := by
  unfold highsLe handleDexSubmit
  repeat' split
  all_goals refine ⟨Nat.le_refl _, Nat.le_refl _, Nat.le_refl _, ?_⟩
  all_goals first
    | exact Nat.le_refl _
    | exact Nat.le_max_left _ _

theorem dexTimerFire_highs (s : Session) (g : RandSrc) (k : Nat) :
    highsLe s (dexTimerFire s g k).1 := by
  unfold highsLe dexTimerFire
  refine ⟨?_, ?_, ?_, ?_⟩ <;>
    simp [startDexRoundS_statHigh, startDexRoundS_compareHigh,
      startDexRoundS_tfHigh, startDexRoundS_dexHigh]

theorem revealDone_highs (s : Session) : highsLe s (revealDone s) := by
  unfold highsLe revealDone
  split <;> exact ⟨Nat.le_refl _, Nat.le_refl _, Nat.le_refl _, Nat.le_refl _⟩

theorem handleRestart_highs (s : Session) (g : RandSrc) (k : Nat) :
    highsLe s (handleRestart s g k).1 := by
  unfold highsLe handleRestart
  split
  all_goals refine ⟨?_, ?_, ?_, ?_⟩
  all_goals
    simp [applyStatRound_statHigh, applyStatRound_compareHigh,
      applyStatRound_tfHigh, applyStatRound_dexHigh,
      applyMoveRound_statHigh, applyMoveRound_compareHigh,
      applyMoveRound_tfHigh, applyMoveRound_dexHigh,
      applyTFRound_statHigh, applyTFRound_compareHigh,
      applyTFRound_tfHigh, applyTFRound_dexHigh,
      startDexRoundS_statHigh, startDexRoundS_compareHigh,
      startDexRoundS_tfHigh, startDexRoundS_dexHigh]

theorem handleModeChange_highs (s : Session) (m : GMode) :
    highsLe s (handleModeChange s m) :=
  ⟨Nat.le_refl _, Nat.le_refl _, Nat.le_refl _, Nat.le_refl _⟩

theorem step_highs (s : Session) (e : Event) (g : RandSrc) (k : Nat) :
    highsLe s (step s e g k).1 := by
  cases e with
  | evGuess sel => exact handleGuess_highs s sel
  | evDexSubmit => exact handleDexSubmit_highs s
  | evResultTimeout => exact resultStep_highs s g k
  | evDexTimeout => exact dexTimerFire_highs s g k
  | evRevealDone => exact revealDone_highs s
  | evRestart => exact handleRestart_highs s g k
  | evModeChange m => exact handleModeChange_highs s m

/-- C5 -- across any sequence of engine events (guesses, submissions,
timer firings, restarts and mode changes) every persisted high-score cell
is monotonically non-decreasing: each write goes through
`max(previous, session score)`. -/
theorem c5_highscore_monotone (s : Session) (es : List Event) (g : RandSrc)
    (k : Nat) : highsLe s (runEvents s es g k).1 := by
  induction es generalizing s k with
  | nil => exact highsLe_refl s
  | cons e rest ih =>
      exact highsLe_trans (step_highs s e g k) (ih (step s e g k).1 (step s e g k).2)

/-! ## Claim C6 -/

theorem duelCarry_not_kept (kept : Option Nat) (l r : Pokemon) (gs : Sel)
    (hne : l.id ≠ r.id) :
    idMatches kept (duelCarry kept l r gs).id = false := by
  unfold duelCarry
  by_cases hk : idMatches kept (duelWinner l r gs).id = true
  · rw [if_pos hk]
    cases kept with
    | none => rfl
    | some kid =>
        simp only [idMatches] at hk ⊢
        have hwid : (duelWinner l r gs).id = kid := beq_iff_eq.mp hk
        have hlw : (duelLoser l r gs).id ≠ (duelWinner l r gs).id := by
          unfold duelWinner duelLoser
          by_cases hgs : (gs == Sel.pickLeft) = true
          · rw [if_pos hgs, if_pos hgs]
            exact fun he => hne he.symm
          · rw [if_neg hgs, if_neg hgs]
            exact hne
        rw [← hwid]
        exact beq_eq_false_iff_ne.mpr hlw
  · rw [if_neg hk]
    exact Bool.not_eq_true _ ▸ hk

theorem startStatRound_keep_left (pool : List Pokemon) (p : Pokemon)
    (g : RandSrc) (k : Nat) (hp : ¬pool.length < 2) :
    ∃ rd, (startStatRound pool (some p) g k).round = some rd ∧ rd.left = p := by
  unfold startStatRound
  rw [if_neg hp]
  exact ⟨_, rfl, rfl⟩

/-- C6 (counterexample) -- a correct guess on the kept creature: the winner
is `duelB` (the `right` pick, id 2, equal to `carryCreatureId`), yet the new
`carryCreatureId` becomes `duelA.id = 1`, not the winner's id; and the next
round presents the same unordered pair `{duelA, duelB}` again. -/
theorem c6_counterexample :
    c6Session.left = some duelA ∧ c6Session.right = some duelB ∧
    c6Session.guess = some Sel.pickRight ∧
    c6Session.lastKeptId = some duelB.id ∧
    isStatCorrect c6Session = true ∧
    duelA.id ≠ duelB.id ∧
    (resultStep c6Session oneG 0).1.lastKeptId = some duelA.id ∧
    (resultStep c6Session oneG 0).1.left = some duelA ∧
    (resultStep c6Session oneG 0).1.right = some duelB := by
  decide

/-- C6 (amended) -- after a correct stat-duel guess the carried creature is
the winner, unless the winner's id equals `carryCreatureId`, in which case
it is the loser; the carried creature becomes the next round's `left` and
its id (not necessarily the winner's) becomes the new `carryCreatureId`,
which always differs from the previous one when the pair's ids differ. The
same unordered pair can still be presented twice in a row (see the
counterexample), because only the carried creature is excluded from the
fresh `right` draw. -/
theorem c6_carry_amended (s : Session) (g : RandSrc) (k : Nat)
    (l r : Pokemon) (gs : Sel)
    (h : s.status = Status.result) (hm : s.mode = GMode.stat)
    (hl : s.left = some l) (hr : s.right = some r) (hg : s.guess = some gs)
    (hc : isStatCorrect s = true) (hp : 2 ≤ s.pokemon.length) :
    (resultStep s g k).1.lastKeptId = some (duelCarry s.lastKeptId l r gs).id ∧
    (resultStep s g k).1.left = some (duelCarry s.lastKeptId l r gs) ∧
    (l.id ≠ r.id →
      idMatches s.lastKeptId (duelCarry s.lastKeptId l r gs).id = false) := by
  have hstep : resultStep s g k = resultBody s g k := by
    unfold resultStep
    rw [if_pos h]
  rw [hstep]
  unfold resultBody
  rw [hm]
  simp only [hl, hr, hg, hc, if_true]
  have hp2 : ¬s.pokemon.length < 2 := by omega
  obtain ⟨rd, hrd, hrdl⟩ :=
    startStatRound_keep_left s.pokemon (duelCarry s.lastKeptId l r gs) g k hp2
  refine ⟨?_, ?_, fun hne => duelCarry_not_kept s.lastKeptId l r gs hne⟩
  · rw [applyStatRound_lastKeptId]
  · rw [hrd]
    simp [applyStatRound, hrdl]

/-- C6 (witness) -- a concrete correct guess where the winner was the kept
creature: the loser `duelA` is carried, becomes the next `left`, and its id
becomes the new `carryCreatureId`. -/
theorem c6_witness :
    (resultStep c6Session oneG 0).1.lastKeptId =
      some (duelCarry c6Session.lastKeptId duelA duelB Sel.pickRight).id ∧
    (resultStep c6Session oneG 0).1.left =
      some (duelCarry c6Session.lastKeptId duelA duelB Sel.pickRight) ∧
    (duelA.id ≠ duelB.id →
      idMatches c6Session.lastKeptId
        (duelCarry c6Session.lastKeptId duelA duelB Sel.pickRight).id = false) :=
  c6_carry_amended c6Session oneG 0 duelA duelB Sel.pickRight rfl rfl rfl rfl
    rfl (by decide) (by decide)

/-! ## Claim C8 -/

/-- C8 (counterexample) -- the suggestion `pikachu` for the partial guess
`pika`: its normalized form is not a prefix of the normalized guess; the
containment goes the other way round. -/
theorem c8_counterexample :
    dexSuggestions [pika] "pika" = ["pikachu"] ∧
    strStartsWith (normalizeAnswer "pika") (normalizeAnswer "pikachu") = false := by
  decide

/-- C8 (amended) -- the autocomplete helper returns at most 8 catalog
names, each of whose normalized form *starts with* the normalized partial
guess (the guess is a prefix of the name, not the name a prefix of the
guess). -/
theorem c8_suggestions_amended (pool : List Pokemon) (q : String) :
    (dexSuggestions pool q).length ≤ 8 ∧
    ∀ n ∈ dexSuggestions pool q,
      strStartsWith (normalizeAnswer n) (normalizeAnswer q) = true := by
  unfold dexSuggestions
  by_cases hq : normalizeAnswer q = ""
  · simp [hq]
  · rw [if_neg hq]
    constructor
    · rw [List.length_map]
      have := List.length_take_le 8
        (pool.filter (fun mon => strStartsWith (normalizeAnswer mon.name)
          (normalizeAnswer q)))
      exact this
    · intro n hn
      simp only [List.mem_map] at hn
      obtain ⟨mon, hmon, rfl⟩ := hn
      exact (List.mem_filter.mp (List.mem_of_mem_take hmon)).2

/-- C8 (witness) -- a concrete catalog and partial guess: the list is short
enough and the returned name starts with the guess. -/
theorem c8_witness :
    (dexSuggestions [pika] "pik").length ≤ 8 ∧
    strStartsWith (normalizeAnswer "pikachu") (normalizeAnswer "pik") = true := by
  have h := c8_suggestions_amended [pika] "pik"
  exact ⟨h.1, h.2 "pikachu" (by decide)⟩

/-! ## Claim C9 -/

/-- C9 (counterexample) -- changing modes does not reset the running score:
a stat session with score 5 keeps that score across `handleModeChange`. -/
theorem c9_counterexample :
    c9Session.score = 5 ∧
    (handleModeChange c9Session GMode.menu).score = 5 ∧
    (handleModeChange c9Session GMode.stat).score = 5 := by
  decide

/-- C9 (amended) -- the active mode's running score is reset to 0 on
restart after game over, but a mode change leaves every per-mode score cell
unchanged (scores persist across mode entry). -/
theorem c9_score_reset_amended (s : Session) (g : RandSrc) (k : Nat)
    (m : GMode) :
    ((handleModeChange s m).score = s.score ∧
     (handleModeChange s m).compareScore = s.compareScore ∧
     (handleModeChange s m).trueFalseScore = s.trueFalseScore ∧
     (handleModeChange s m).dexScore = s.dexScore) ∧
    (s.mode = GMode.stat → (handleRestart s g k).1.score = 0) ∧
    (s.mode = GMode.moveCompare → (handleRestart s g k).1.compareScore = 0) ∧
    (s.mode = GMode.moveTrueFalse →
      (handleRestart s g k).1.trueFalseScore = 0) ∧
    (s.mode = GMode.dexGuess → (handleRestart s g k).1.dexScore = 0) := by
  refine ⟨⟨rfl, rfl, rfl, rfl⟩, ?_, ?_, ?_, ?_⟩ <;> intro hm
  · unfold handleRestart
    rw [hm]
    simp [applyStatRound_score]
  · unfold handleRestart
    rw [hm]
    simp [applyMoveRound_compareScore]
  · unfold handleRestart
    rw [hm]
    simp [applyTFRound_trueFalseScore]
  · unfold handleRestart
    rw [hm]
    simp [startDexRoundS_dexScore]

/-- C9 (witness) -- the concrete running session: a mode change keeps the
score at 5, a restart clears it to 0. -/
theorem c9_witness :
    (handleModeChange c9Session GMode.menu).score = c9Session.score ∧
    (handleRestart c9Session zeroG 0).1.score = 0 := by
  have h := c9_score_reset_amended c9Session zeroG 0 GMode.menu
  exact ⟨h.1.1, h.2.1 rfl⟩

/-! ## Claim C10 -/

/-- C10 -- submitting a guess while the status is not `ready` (loading,
revealing, result or gameover) is a no-op: both `handleGuess` and
`handleDexSubmit` return the session unchanged, so status, scores, the
current round and the recorded guess are all untouched. -/
theorem c10_submit_noop (s : Session) (sel : Sel)
    (h : s.status ≠ Status.ready) :
    handleGuess s sel = s ∧ handleDexSubmit s = s := by
  constructor
  · unfold handleGuess
    rw [if_pos h]
  · unfold handleDexSubmit
    rw [if_pos (Or.inr h)]

/-- C10 (witness) -- a concrete game-over session: both submission
handlers leave it unchanged. -/
theorem c10_witness :
    handleGuess c10Session Sel.pickLeft = c10Session ∧
    handleDexSubmit c10Session = c10Session :=
  c10_submit_noop c10Session Sel.pickLeft (by decide)
